import Mathlib

/-!
# Zookeeper resolver options

A shallow embedding of `registries/zookeeper/resolver/options.go`: the draft record
`Options`, the functional options `WithServers` ... `WithSessionTimeout`, the ordered
application `Options.Apply` and the validating constructor `newOptions`.

Conventions of the embedding:

* a Go `*Options` mutated in place is an `Options` value passed through a function;
* a Go `[]string` is a `List String` (only `len` and the elements are observed, so a nil
  slice and an empty slice are the same list);
* a Go `string` is a `String`; the code only copies strings and compares them with `""`;
* a Go `time.Duration` (an int64 count of nanoseconds) is an `Int`; the code only
  compares it with `0` and copies it, so no arithmetic can overflow;
* a Go `panic(msg)` is `Except.error msg`, a normal return is `Except.ok`.

The file also embeds `pkg/dubbo/payload.go`, the six response payload constants (Go `int32`
constants, here `Int` values; no arithmetic is done on them in the source).
-/

namespace dubbo

/-! ## Response payload type enum (payload.go) -/

/-- Constant `RESPONSE_WITH_EXCEPTION int32 = 0`. -/
def RESPONSE_WITH_EXCEPTION : Int := 0

/-- Constant `RESPONSE_VALUE int32 = 1`. -/
def RESPONSE_VALUE : Int := 1

/-- Constant `RESPONSE_NULL_VALUE int32 = 2`. -/
def RESPONSE_NULL_VALUE : Int := 2

/-- Constant `RESPONSE_WITH_EXCEPTION_WITH_ATTACHMENTS int32 = 3`. -/
def RESPONSE_WITH_EXCEPTION_WITH_ATTACHMENTS : Int := 3

/-- Constant `RESPONSE_VALUE_WITH_ATTACHMENTS int32 = 4`. -/
def RESPONSE_VALUE_WITH_ATTACHMENTS : Int := 4

/-- Constant `RESPONSE_NULL_VALUE_WITH_ATTACHMENTS int32 = 5`. -/
def RESPONSE_NULL_VALUE_WITH_ATTACHMENTS : Int := 5

/-- Modelled from the spec: payload.go declares the six constants and no variant type. These
are the six variants of the table in section 3 of the spec, in the order of their codes. -/
inductive ResponsePayloadKind where
  | exception
  | value
  | nullValue
  | exceptionWithAttachments
  | valueWithAttachments
  | nullValueWithAttachments
  deriving DecidableEq, Repr

/-- Modelled from the spec: payload.go has no error type. Section 4.2 of the spec asks for an
"unknown payload kind" error "carrying the offending code". -/
inductive ClassificationError where
  | unknownPayloadKind (code : Int)
  deriving DecidableEq, Repr

/-- Modelled from the spec: payload.go has no classification function. Section 4.2 of the spec
describes `classify` as a "pure, stateless lookup against the six-entry table" that fails with
an unknown-payload-kind error for any other integer; the lookup is written here over the six
constants of payload.go. -/
def classify (code : Int) : Except ClassificationError ResponsePayloadKind :=
  if code = RESPONSE_WITH_EXCEPTION then Except.ok ResponsePayloadKind.exception
  else if code = RESPONSE_VALUE then Except.ok ResponsePayloadKind.value
  else if code = RESPONSE_NULL_VALUE then Except.ok ResponsePayloadKind.nullValue
  else if code = RESPONSE_WITH_EXCEPTION_WITH_ATTACHMENTS then
    Except.ok ResponsePayloadKind.exceptionWithAttachments
  else if code = RESPONSE_VALUE_WITH_ATTACHMENTS then
    Except.ok ResponsePayloadKind.valueWithAttachments
  else if code = RESPONSE_NULL_VALUE_WITH_ATTACHMENTS then
    Except.ok ResponsePayloadKind.nullValueWithAttachments
  else Except.error (ClassificationError.unknownPayloadKind code)

end dubbo

namespace resolver

/-- Go `time.Second` expressed in nanoseconds, the unit of `time.Duration`. -/
def Second : Int := 1000000000

/-- Modelled from the spec: the declaration of the constant `defaultSessionTimeout` is not in
options.go. The doc comment of `WithSessionTimeout` ("The default SessionTimeout would be
3 * time.Second") and the spec ("sets it to 3 seconds") both give its value. -/
def defaultSessionTimeout : Int := 3 * Second

/-- The draft and final record of options.go, field for field. -/
structure Options where
  Servers : List String
  InterfaceName : String
  RegistryGroup : String
  ServiceGroup : String
  ServiceVersion : String
  SessionTimeout : Int
  deriving DecidableEq, Repr

/-- The Go zero value `Options{}`: nil slice, empty strings, zero duration. -/
def Options.zero : Options :=
  { Servers := [], InterfaceName := "", RegistryGroup := "", ServiceGroup := "",
    ServiceVersion := "", SessionTimeout := 0 }

/-- The Go `Option` struct: one field `F`, a function that mutates the draft. -/
structure Option where
  F : Options → Options

/-- `func (o *Options) Apply(opts []Option)`: run every option on the draft, in order. -/
def Options.Apply (o : Options) (opts : List Option) : Options :=
  opts.foldl (fun acc opt => opt.F acc) o

/-- `func newOptions(opts []Option) *Options`. The package constant `defaultRegistryGroup`
is declared outside options.go and its literal is not documented, so it is a parameter. -/
def newOptions (defaultRegistryGroup : String) (opts : List Option) : Except String Options :=
  let o := Options.zero
  let o := o.Apply opts
  if o.Servers.length ≤ 0 then
    Except.error "Please specify at least one zookeeper server address. e.g. WithServers(\"127.0.0.1:2181\")"
  else if o.InterfaceName = "" then
    Except.error "Please specify target InterfaceName. e.g. WithInterfaceName(\"org.cloudwego.kitex.samples.api.GreetProvider\")"
  else
    let o := if o.RegistryGroup = "" then { o with RegistryGroup := defaultRegistryGroup } else o
    let o := if o.SessionTimeout = 0 then { o with SessionTimeout := defaultSessionTimeout } else o
    Except.ok o

/-- `func WithServers(servers ...string) Option`; the variadic arguments are a list, which is
empty for a call with no argument. -/
def WithServers (servers : List String) : Option :=
  { F := fun o => { o with Servers := servers } }

/-- `func WithInterfaceName(name string) Option`. -/
def WithInterfaceName (name : String) : Option :=
  { F := fun o => { o with InterfaceName := name } }

/-- `func WithRegistryGroup(group string) Option`. -/
def WithRegistryGroup (group : String) : Option :=
  { F := fun o => { o with RegistryGroup := group } }

/-- `func WithServiceGroup(group string) Option`. -/
def WithServiceGroup (group : String) : Option :=
  { F := fun o => { o with ServiceGroup := group } }

/-- `func WithServiceVersion(version string) Option`. -/
def WithServiceVersion (version : String) : Option :=
  { F := fun o => { o with ServiceVersion := version } }

/-- `func WithSessionTimeout(timeout time.Duration) Option`. -/
def WithSessionTimeout (timeout : Int) : Option :=
  { F := fun o => { o with SessionTimeout := timeout } }

/-! ## Describing option lists built from the six setters

An `Option` holds an arbitrary function. To quantify over the lists that are built from the
six `With*` functions, and to speak of "the last `WithServers` call", a call is described by
its function name and argument; `Call.toOption` is the `Option` that the call returns. -/

/-- The six fields of `Options`, used to say which field a call writes. -/
inductive Field where
  | Servers
  | InterfaceName
  | RegistryGroup
  | ServiceGroup
  | ServiceVersion
  | SessionTimeout
  deriving DecidableEq, Repr

/-- One call of one of the six `With*` functions, with its argument. -/
inductive Call where
  | WithServers (servers : List String)
  | WithInterfaceName (name : String)
  | WithRegistryGroup (group : String)
  | WithServiceGroup (group : String)
  | WithServiceVersion (version : String)
  | WithSessionTimeout (timeout : Int)
  deriving DecidableEq, Repr

/-- The `Option` value that the described call returns. -/
def Call.toOption : Call → Option
  | Call.WithServers servers => resolver.WithServers servers
  | Call.WithInterfaceName name => resolver.WithInterfaceName name
  | Call.WithRegistryGroup group => resolver.WithRegistryGroup group
  | Call.WithServiceGroup group => resolver.WithServiceGroup group
  | Call.WithServiceVersion version => resolver.WithServiceVersion version
  | Call.WithSessionTimeout timeout => resolver.WithSessionTimeout timeout

/-- The function name of a call, given as the field that function assigns in its body. -/
def Call.field : Call → Field
  | Call.WithServers _ => Field.Servers
  | Call.WithInterfaceName _ => Field.InterfaceName
  | Call.WithRegistryGroup _ => Field.RegistryGroup
  | Call.WithServiceGroup _ => Field.ServiceGroup
  | Call.WithServiceVersion _ => Field.ServiceVersion
  | Call.WithSessionTimeout _ => Field.SessionTimeout

/-- The option list `[]Option{...}` of a list of calls. -/
def build (calls : List Call) : List Option :=
  calls.map Call.toOption

/-- The draft right after `o.Apply(opts)` inside `newOptions`: all options run, in order, on
the zero value. -/
def draft (calls : List Call) : Options :=
  Options.zero.Apply (build calls)

/-- The call `c` occurs in `calls` and no later call in the list writes the same field: `c` is
the last call of its function in the list. -/
def LastCall (calls : List Call) (c : Call) : Prop :=
  ∃ pre post, calls = pre ++ c :: post ∧ ∀ d ∈ post, d.field ≠ c.field

/-- The list `calls` with every `WithServiceGroup` and `WithServiceVersion` call removed; two
lists with the same image differ only in their calls of these two functions. -/
def withoutServiceCalls (calls : List Call) : List Call :=
  calls.filter (fun c => decide (c.field ≠ Field.ServiceGroup ∧ c.field ≠ Field.ServiceVersion))

/-- The calls in `calls` that write the field `f`, in their order in `calls`. -/
def callsOf (f : Field) (calls : List Call) : List Call :=
  calls.filter (fun c => decide (c.field = f))

/-- The list `calls` with every call that writes the field `f` removed. -/
def withoutCallsOf (f : Field) (calls : List Call) : List Call :=
  calls.filter (fun c => decide (c.field ≠ f))

/-! ## Basic facts about `Apply` -/

@[simp] theorem Apply_nil (o : Options) : o.Apply [] = o := rfl

@[simp] theorem Apply_cons (o : Options) (opt : Option) (opts : List Option) :
    o.Apply (opt :: opts) = (opt.F o).Apply opts := rfl

theorem Apply_append (o : Options) (xs ys : List Option) :
    o.Apply (xs ++ ys) = (o.Apply xs).Apply ys := by
  simp [Options.Apply, List.foldl_append]

@[simp] theorem build_nil : build [] = [] := rfl

@[simp] theorem build_cons (c : Call) (cs : List Call) :
    build (c :: cs) = c.toOption :: build cs := rfl

theorem build_append (xs ys : List Call) : build (xs ++ ys) = build xs ++ build ys := by
  simp [build]

/-- The shape of the result of `newOptions`, read off its body. -/
theorem newOptions_eq (g : String) (opts : List Option) :
    newOptions g opts =
      if (Options.zero.Apply opts).Servers.length ≤ 0 then
        Except.error "Please specify at least one zookeeper server address. e.g. WithServers(\"127.0.0.1:2181\")"
      else if (Options.zero.Apply opts).InterfaceName = "" then
        Except.error "Please specify target InterfaceName. e.g. WithInterfaceName(\"org.cloudwego.kitex.samples.api.GreetProvider\")"
      else
        Except.ok
          { Servers := (Options.zero.Apply opts).Servers,
            InterfaceName := (Options.zero.Apply opts).InterfaceName,
            RegistryGroup :=
              if (Options.zero.Apply opts).RegistryGroup = "" then g
              else (Options.zero.Apply opts).RegistryGroup,
            ServiceGroup := (Options.zero.Apply opts).ServiceGroup,
            ServiceVersion := (Options.zero.Apply opts).ServiceVersion,
            SessionTimeout :=
              if (Options.zero.Apply opts).SessionTimeout = 0 then defaultSessionTimeout
              else (Options.zero.Apply opts).SessionTimeout } := by
  unfold newOptions
  simp only []
  split_ifs <;> rfl

theorem draft_append (xs ys : List Call) :
    draft (xs ++ ys) = (draft xs).Apply (build ys) := by
  simp [draft, build_append, Apply_append]

/-! ## Frame lemmas: calls of other functions leave a field alone -/

theorem Apply_Servers_frame (cs : List Call) (o : Options)
    (h : ∀ c ∈ cs, c.field ≠ Field.Servers) : (o.Apply (build cs)).Servers = o.Servers := by
  induction cs generalizing o with
  | nil => rfl
  | cons c cs ih =>
    have h1 := h c (List.mem_cons_self c cs)
    have h2 : ∀ d ∈ cs, d.field ≠ Field.Servers := fun d hd => h d (List.mem_cons_of_mem c hd)
    rw [build_cons, Apply_cons, ih _ h2]
    cases c <;> first | rfl | exact absurd rfl h1

theorem Apply_InterfaceName_frame (cs : List Call) (o : Options)
    (h : ∀ c ∈ cs, c.field ≠ Field.InterfaceName) :
    (o.Apply (build cs)).InterfaceName = o.InterfaceName := by
  induction cs generalizing o with
  | nil => rfl
  | cons c cs ih =>
    have h1 := h c (List.mem_cons_self c cs)
    have h2 : ∀ d ∈ cs, d.field ≠ Field.InterfaceName :=
      fun d hd => h d (List.mem_cons_of_mem c hd)
    rw [build_cons, Apply_cons, ih _ h2]
    cases c <;> first | rfl | exact absurd rfl h1

theorem Apply_RegistryGroup_frame (cs : List Call) (o : Options)
    (h : ∀ c ∈ cs, c.field ≠ Field.RegistryGroup) :
    (o.Apply (build cs)).RegistryGroup = o.RegistryGroup := by
  induction cs generalizing o with
  | nil => rfl
  | cons c cs ih =>
    have h1 := h c (List.mem_cons_self c cs)
    have h2 : ∀ d ∈ cs, d.field ≠ Field.RegistryGroup :=
      fun d hd => h d (List.mem_cons_of_mem c hd)
    rw [build_cons, Apply_cons, ih _ h2]
    cases c <;> first | rfl | exact absurd rfl h1

theorem Apply_ServiceGroup_frame (cs : List Call) (o : Options)
    (h : ∀ c ∈ cs, c.field ≠ Field.ServiceGroup) :
    (o.Apply (build cs)).ServiceGroup = o.ServiceGroup := by
  induction cs generalizing o with
  | nil => rfl
  | cons c cs ih =>
    have h1 := h c (List.mem_cons_self c cs)
    have h2 : ∀ d ∈ cs, d.field ≠ Field.ServiceGroup :=
      fun d hd => h d (List.mem_cons_of_mem c hd)
    rw [build_cons, Apply_cons, ih _ h2]
    cases c <;> first | rfl | exact absurd rfl h1

theorem Apply_ServiceVersion_frame (cs : List Call) (o : Options)
    (h : ∀ c ∈ cs, c.field ≠ Field.ServiceVersion) :
    (o.Apply (build cs)).ServiceVersion = o.ServiceVersion := by
  induction cs generalizing o with
  | nil => rfl
  | cons c cs ih =>
    have h1 := h c (List.mem_cons_self c cs)
    have h2 : ∀ d ∈ cs, d.field ≠ Field.ServiceVersion :=
      fun d hd => h d (List.mem_cons_of_mem c hd)
    rw [build_cons, Apply_cons, ih _ h2]
    cases c <;> first | rfl | exact absurd rfl h1

theorem Apply_SessionTimeout_frame (cs : List Call) (o : Options)
    (h : ∀ c ∈ cs, c.field ≠ Field.SessionTimeout) :
    (o.Apply (build cs)).SessionTimeout = o.SessionTimeout := by
  induction cs generalizing o with
  | nil => rfl
  | cons c cs ih =>
    have h1 := h c (List.mem_cons_self c cs)
    have h2 : ∀ d ∈ cs, d.field ≠ Field.SessionTimeout :=
      fun d hd => h d (List.mem_cons_of_mem c hd)
    rw [build_cons, Apply_cons, ih _ h2]
    cases c <;> first | rfl | exact absurd rfl h1

/-! ## The last call of a function decides its field of the draft -/

theorem draft_Servers_of_last (calls : List Call) (s : List String)
    (h : LastCall calls (Call.WithServers s)) : (draft calls).Servers = s := by
  obtain ⟨pre, post, rfl, hpost⟩ := h
  rw [draft_append, build_cons, Apply_cons, Apply_Servers_frame post _ hpost]
  rfl

theorem draft_InterfaceName_of_last (calls : List Call) (n : String)
    (h : LastCall calls (Call.WithInterfaceName n)) : (draft calls).InterfaceName = n := by
  obtain ⟨pre, post, rfl, hpost⟩ := h
  rw [draft_append, build_cons, Apply_cons, Apply_InterfaceName_frame post _ hpost]
  rfl

theorem draft_RegistryGroup_of_last (calls : List Call) (grp : String)
    (h : LastCall calls (Call.WithRegistryGroup grp)) : (draft calls).RegistryGroup = grp := by
  obtain ⟨pre, post, rfl, hpost⟩ := h
  rw [draft_append, build_cons, Apply_cons, Apply_RegistryGroup_frame post _ hpost]
  rfl

theorem draft_ServiceGroup_of_last (calls : List Call) (grp : String)
    (h : LastCall calls (Call.WithServiceGroup grp)) : (draft calls).ServiceGroup = grp := by
  obtain ⟨pre, post, rfl, hpost⟩ := h
  rw [draft_append, build_cons, Apply_cons, Apply_ServiceGroup_frame post _ hpost]
  rfl

theorem draft_ServiceVersion_of_last (calls : List Call) (v : String)
    (h : LastCall calls (Call.WithServiceVersion v)) : (draft calls).ServiceVersion = v := by
  obtain ⟨pre, post, rfl, hpost⟩ := h
  rw [draft_append, build_cons, Apply_cons, Apply_ServiceVersion_frame post _ hpost]
  rfl

theorem draft_SessionTimeout_of_last (calls : List Call) (d : Int)
    (h : LastCall calls (Call.WithSessionTimeout d)) : (draft calls).SessionTimeout = d := by
  obtain ⟨pre, post, rfl, hpost⟩ := h
  rw [draft_append, build_cons, Apply_cons, Apply_SessionTimeout_frame post _ hpost]
  rfl

/-- The result of `newOptions` in terms of the draft. -/
theorem newOptions_build (g : String) (calls : List Call) :
    newOptions g (build calls) =
      if (draft calls).Servers.length ≤ 0 then
        Except.error "Please specify at least one zookeeper server address. e.g. WithServers(\"127.0.0.1:2181\")"
      else if (draft calls).InterfaceName = "" then
        Except.error "Please specify target InterfaceName. e.g. WithInterfaceName(\"org.cloudwego.kitex.samples.api.GreetProvider\")"
      else
        Except.ok
          { Servers := (draft calls).Servers,
            InterfaceName := (draft calls).InterfaceName,
            RegistryGroup :=
              if (draft calls).RegistryGroup = "" then g else (draft calls).RegistryGroup,
            ServiceGroup := (draft calls).ServiceGroup,
            ServiceVersion := (draft calls).ServiceVersion,
            SessionTimeout :=
              if (draft calls).SessionTimeout = 0 then defaultSessionTimeout
              else (draft calls).SessionTimeout } :=
  newOptions_eq g (build calls)

/-- What a successful `newOptions` says about the draft and about each returned field. -/
theorem newOptions_ok_fields (g : String) (calls : List Call) (o : Options)
    (h : newOptions g (build calls) = Except.ok o) :
    1 ≤ (draft calls).Servers.length ∧ (draft calls).InterfaceName ≠ "" ∧
      o.Servers = (draft calls).Servers ∧ o.InterfaceName = (draft calls).InterfaceName ∧
      o.RegistryGroup =
        (if (draft calls).RegistryGroup = "" then g else (draft calls).RegistryGroup) ∧
      o.ServiceGroup = (draft calls).ServiceGroup ∧
      o.ServiceVersion = (draft calls).ServiceVersion ∧
      o.SessionTimeout =
        (if (draft calls).SessionTimeout = 0 then defaultSessionTimeout
          else (draft calls).SessionTimeout) := by
  rw [newOptions_build] at h
  by_cases hs : (draft calls).Servers.length ≤ 0
  · rw [if_pos hs] at h
    cases h
  · rw [if_neg hs] at h
    by_cases hn : (draft calls).InterfaceName = ""
    · rw [if_pos hn] at h
      cases h
    · rw [if_neg hn] at h
      injection h with h
      subst h
      exact ⟨by omega, hn, rfl, rfl, rfl, rfl, rfl, rfl⟩

/-- Calls of `WithServiceGroup` and `WithServiceVersion` can be dropped from a list without
changing the other four fields of the draft. -/
theorem Apply_filter_service (cs : List Call) (o o2 : Options)
    (h : o.Servers = o2.Servers ∧ o.InterfaceName = o2.InterfaceName ∧
      o.RegistryGroup = o2.RegistryGroup ∧ o.SessionTimeout = o2.SessionTimeout) :
    (o.Apply (build cs)).Servers =
        (o2.Apply (build (cs.filter (fun c =>
          decide (c.field ≠ Field.ServiceGroup ∧ c.field ≠ Field.ServiceVersion))))).Servers ∧
      (o.Apply (build cs)).InterfaceName =
        (o2.Apply (build (cs.filter (fun c =>
          decide (c.field ≠ Field.ServiceGroup ∧ c.field ≠ Field.ServiceVersion))))).InterfaceName ∧
      (o.Apply (build cs)).RegistryGroup =
        (o2.Apply (build (cs.filter (fun c =>
          decide (c.field ≠ Field.ServiceGroup ∧ c.field ≠ Field.ServiceVersion))))).RegistryGroup ∧
      (o.Apply (build cs)).SessionTimeout =
        (o2.Apply (build (cs.filter (fun c =>
          decide (c.field ≠ Field.ServiceGroup ∧ c.field ≠ Field.ServiceVersion))))).SessionTimeout := by
  induction cs generalizing o o2 with
  | nil => exact h
  | cons c cs ih =>
    obtain ⟨h1, h2, h3, h4⟩ := h
    cases c <;> simp only [List.filter, Call.field, ne_eq, not_true_eq_false, not_false_eq_true,
      and_self, and_true, and_false, false_and, true_and, decide_True, decide_False,
      reduceCtorEq, build_cons, Apply_cons] <;> apply ih <;>
      simp [Call.toOption, WithServers, WithInterfaceName, WithRegistryGroup, WithServiceGroup,
        WithServiceVersion, WithSessionTimeout, h1, h2, h3, h4]

/-! ## Claims -/

/-- C1: for every list of calls of the six setters, `newOptions` returns an `Options` value
exactly when the draft after `Apply` has at least one server and a non-empty `InterfaceName`;
in every other case it panics (returns no value). -/
theorem C1_newOptions_returns_iff (g : String) (calls : List Call) :
    ((∃ o, newOptions g (build calls) = Except.ok o) ↔
        (1 ≤ (draft calls).Servers.length ∧ (draft calls).InterfaceName ≠ "")) ∧
      (¬ (1 ≤ (draft calls).Servers.length ∧ (draft calls).InterfaceName ≠ "") →
        (∃ msg, newOptions g (build calls) = Except.error msg) ∧
          ¬ ∃ o, newOptions g (build calls) = Except.ok o) := by
  rw [newOptions_build]
  by_cases hs : (draft calls).Servers.length ≤ 0
  · have hs1 : ¬ 1 ≤ (draft calls).Servers.length := by omega
    simp [hs, hs1]
  · have hs1 : 1 ≤ (draft calls).Servers.length := by omega
    by_cases hn : (draft calls).InterfaceName = ""
    · simp [hs, hn]
    · simp [hs, hs1, hn]

/-- Witness of C1: both directions at concrete lists. -/
theorem C1_newOptions_returns_iff_witness :
    (∃ o, newOptions "dubbo"
        (build [Call.WithServers ["127.0.0.1:2181"], Call.WithInterfaceName "x"])
          = Except.ok o) ∧
      (∃ msg, newOptions "dubbo" (build [Call.WithInterfaceName "x"]) = Except.error msg) :=
  ⟨(C1_newOptions_returns_iff "dubbo"
      [Call.WithServers ["127.0.0.1:2181"], Call.WithInterfaceName "x"]).1.2
      ⟨by decide, by decide⟩,
    ((C1_newOptions_returns_iff "dubbo" [Call.WithInterfaceName "x"]).2 (by decide)).1⟩

/-- C2: a list with no `WithServers` call makes `newOptions` fail, whatever the other calls
are; and whenever the draft has no server after `Apply`, the failure carries exactly the
missing-servers message. -/
theorem C2_missing_servers_fails (g : String) (calls : List Call) :
    ((∀ c ∈ calls, c.field ≠ Field.Servers) →
        ∃ msg, newOptions g (build calls) = Except.error msg) ∧
      ((draft calls).Servers.length = 0 →
        newOptions g (build calls) =
          Except.error "Please specify at least one zookeeper server address. e.g. WithServers(\"127.0.0.1:2181\")") := by
  have key : (draft calls).Servers.length = 0 →
      newOptions g (build calls) =
        Except.error "Please specify at least one zookeeper server address. e.g. WithServers(\"127.0.0.1:2181\")" := by
    intro h0
    rw [newOptions_build, if_pos (by omega)]
  refine ⟨fun hno => ⟨_, key ?_⟩, key⟩
  have h := Apply_Servers_frame calls Options.zero hno
  show (Options.zero.Apply (build calls)).Servers.length = 0
  rw [h]
  rfl

/-- Witness of C2: scenario B, `WithInterfaceName("x")` only, with two more setters added. -/
theorem C2_missing_servers_fails_witness :
    (∃ msg, newOptions "dubbo"
        (build [Call.WithInterfaceName "x", Call.WithRegistryGroup "grp",
          Call.WithSessionTimeout 5]) = Except.error msg) ∧
      newOptions "dubbo" (build [Call.WithInterfaceName "x"]) =
        Except.error "Please specify at least one zookeeper server address. e.g. WithServers(\"127.0.0.1:2181\")" :=
  ⟨(C2_missing_servers_fails "dubbo"
      [Call.WithInterfaceName "x", Call.WithRegistryGroup "grp", Call.WithSessionTimeout 5]).1
      (by decide),
    (C2_missing_servers_fails "dubbo" [Call.WithInterfaceName "x"]).2 (by decide)⟩

/-- C3: a list with no `WithInterfaceName` call makes `newOptions` fail, whatever the other
calls are; and whenever after `Apply` the draft has a server and an empty `InterfaceName`,
the failure carries exactly the missing-InterfaceName message. -/
theorem C3_missing_interface_name_fails (g : String) (calls : List Call) :
    ((∀ c ∈ calls, c.field ≠ Field.InterfaceName) →
        ∃ msg, newOptions g (build calls) = Except.error msg) ∧
      (1 ≤ (draft calls).Servers.length → (draft calls).InterfaceName = "" →
        newOptions g (build calls) =
          Except.error "Please specify target InterfaceName. e.g. WithInterfaceName(\"org.cloudwego.kitex.samples.api.GreetProvider\")") := by
  constructor
  · intro hno
    have h : (draft calls).InterfaceName = "" := by
      show (Options.zero.Apply (build calls)).InterfaceName = ""
      rw [Apply_InterfaceName_frame calls Options.zero hno]
      rfl
    rw [newOptions_build]
    by_cases hs : (draft calls).Servers.length ≤ 0
    · exact ⟨_, if_pos hs⟩
    · rw [if_neg hs, if_pos h]
      exact ⟨_, rfl⟩
  · intro hs hn
    rw [newOptions_build, if_neg (by omega), if_pos hn]

/-- Witness of C3: servers given, no interface name. -/
theorem C3_missing_interface_name_fails_witness :
    (∃ msg, newOptions "dubbo"
        (build [Call.WithServers ["127.0.0.1:2181"], Call.WithServiceGroup "sg"])
          = Except.error msg) ∧
      newOptions "dubbo" (build [Call.WithServers ["127.0.0.1:2181"]]) =
        Except.error "Please specify target InterfaceName. e.g. WithInterfaceName(\"org.cloudwego.kitex.samples.api.GreetProvider\")" :=
  ⟨(C3_missing_interface_name_fails "dubbo"
      [Call.WithServers ["127.0.0.1:2181"], Call.WithServiceGroup "sg"]).1 (by decide),
    (C3_missing_interface_name_fails "dubbo" [Call.WithServers ["127.0.0.1:2181"]]).2
      (by decide) (by decide)⟩

/-- C4, as stated, fails: the list `[WithServers(), WithInterfaceName("x")]` contains a
`WithServers` call and a `WithInterfaceName` call, and `newOptions` panics on it with the
missing-servers message; so does `[WithServers("a:1"), WithInterfaceName("")]` with the
missing-InterfaceName message. Both hold whatever the default registry group is. -/
theorem C4_counterexample :
    (∃ c ∈ [Call.WithServers [], Call.WithInterfaceName "x"], c.field = Field.Servers) ∧
      (∃ c ∈ [Call.WithServers [], Call.WithInterfaceName "x"],
        c.field = Field.InterfaceName) ∧
      (∀ g : String,
        newOptions g (build [Call.WithServers [], Call.WithInterfaceName "x"]) =
          Except.error "Please specify at least one zookeeper server address. e.g. WithServers(\"127.0.0.1:2181\")") ∧
      (∃ c ∈ [Call.WithServers ["a:1"], Call.WithInterfaceName ""],
        c.field = Field.Servers) ∧
      (∃ c ∈ [Call.WithServers ["a:1"], Call.WithInterfaceName ""],
        c.field = Field.InterfaceName) ∧
      (∀ g : String,
        newOptions g (build [Call.WithServers ["a:1"], Call.WithInterfaceName ""]) =
          Except.error "Please specify target InterfaceName. e.g. WithInterfaceName(\"org.cloudwego.kitex.samples.api.GreetProvider\")") := by
  refine ⟨by decide, by decide, fun g => ?_, by decide, by decide, fun g => ?_⟩
  · rw [newOptions_build, if_pos (by decide)]
  · rw [newOptions_build, if_neg (by decide), if_pos (by decide)]

/-- C4, amended: for every list of calls of the six setters whose last `WithServers` call
passes at least one server and whose last `WithInterfaceName` call passes a non-empty name,
`newOptions` succeeds; and when the list contains no `WithSessionTimeout` call, the returned
`SessionTimeout` is 3 seconds, the value of `defaultSessionTimeout`. -/
theorem C4_required_setters_succeed (g : String) (calls : List Call) (s : List String)
    (n : String) (hs : LastCall calls (Call.WithServers s)) (hs1 : s ≠ [])
    (hn : LastCall calls (Call.WithInterfaceName n)) (hn1 : n ≠ "") :
    ∃ o, newOptions g (build calls) = Except.ok o ∧
      ((∀ c ∈ calls, c.field ≠ Field.SessionTimeout) →
        o.SessionTimeout = 3 * Second ∧ o.SessionTimeout = 3000000000 ∧
          o.SessionTimeout = defaultSessionTimeout) := by
  have h1 : (draft calls).Servers = s := draft_Servers_of_last calls s hs
  have h2 : (draft calls).InterfaceName = n := draft_InterfaceName_of_last calls n hn
  have hlen : ¬ (draft calls).Servers.length ≤ 0 := by
    rw [h1]
    have := List.length_pos.mpr hs1
    omega
  rw [newOptions_build, if_neg hlen, if_neg (by rw [h2]; exact hn1)]
  refine ⟨_, rfl, fun hno => ?_⟩
  have h3 : (draft calls).SessionTimeout = 0 := by
    show (Options.zero.Apply (build calls)).SessionTimeout = 0
    rw [Apply_SessionTimeout_frame calls Options.zero hno]
    rfl
  have h4 : (if (draft calls).SessionTimeout = 0 then defaultSessionTimeout
      else (draft calls).SessionTimeout) = defaultSessionTimeout := if_pos h3
  exact ⟨h4, h4, h4⟩

/-- Witness of C4 (amended): an earlier empty `WithServers()` is harmless once a later call
supplies a server. -/
theorem C4_required_setters_succeed_witness :
    ∃ o, newOptions "dubbo"
        (build [Call.WithServers [], Call.WithInterfaceName "x", Call.WithServers ["a:1"]])
          = Except.ok o ∧
      ((∀ c ∈ [Call.WithServers [], Call.WithInterfaceName "x", Call.WithServers ["a:1"]],
          c.field ≠ Field.SessionTimeout) →
        o.SessionTimeout = 3 * Second ∧ o.SessionTimeout = 3000000000 ∧
          o.SessionTimeout = defaultSessionTimeout) :=
  C4_required_setters_succeed "dubbo"
    [Call.WithServers [], Call.WithInterfaceName "x", Call.WithServers ["a:1"]] ["a:1"] "x"
    ⟨[Call.WithServers [], Call.WithInterfaceName "x"], [], rfl, by decide⟩ (by decide)
    ⟨[Call.WithServers []], [Call.WithServers ["a:1"]], rfl, by decide⟩ (by decide)

/-- C6: on every list of calls on which `newOptions` succeeds, the returned `Servers` is
exactly the argument list of the last `WithServers` call, in the same order; earlier
`WithServers` calls contribute nothing (overwrite, not append). -/
theorem C6_last_servers_wins (g : String) (calls : List Call) (s : List String) (o : Options)
    (hlast : LastCall calls (Call.WithServers s))
    (h : newOptions g (build calls) = Except.ok o) : o.Servers = s := by
  obtain ⟨_, _, h3, _⟩ := newOptions_ok_fields g calls o h
  rw [h3]
  exact draft_Servers_of_last calls s hlast

/-- Witness of C6: `[WithServers("a:1"), WithServers("b:2"), WithInterfaceName("x")]` gives
`Servers = ["b:2"]`. -/
theorem C6_last_servers_wins_witness :
    ∃ o, newOptions "dubbo"
        (build [Call.WithServers ["a:1"], Call.WithServers ["b:2"],
          Call.WithInterfaceName "x"]) = Except.ok o ∧ o.Servers = ["b:2"] :=
  ⟨{ Servers := ["b:2"], InterfaceName := "x", RegistryGroup := "dubbo", ServiceGroup := "",
     ServiceVersion := "", SessionTimeout := 3000000000 },
    rfl,
    C6_last_servers_wins "dubbo"
      [Call.WithServers ["a:1"], Call.WithServers ["b:2"], Call.WithInterfaceName "x"]
      ["b:2"] _
      ⟨[Call.WithServers ["a:1"]], [Call.WithInterfaceName "x"], rfl, by decide⟩ rfl⟩

/-- C7: for every non-empty list of endpoints `s` and every non-empty string `n`,
`newOptions([WithServers(s...), WithInterfaceName(n)])` succeeds and returns exactly the
record with `Servers = s`, `InterfaceName = n`, `RegistryGroup = defaultRegistryGroup`,
`ServiceGroup = ""`, `ServiceVersion = ""` and `SessionTimeout = defaultSessionTimeout`,
which is 3 seconds. -/
theorem C7_scenario_A (g : String) (s : List String) (n : String) (hs : s ≠ [])
    (hn : n ≠ "") :
    newOptions g [WithServers s, WithInterfaceName n] =
        Except.ok
          { Servers := s, InterfaceName := n, RegistryGroup := g, ServiceGroup := "",
            ServiceVersion := "", SessionTimeout := defaultSessionTimeout } ∧
      defaultSessionTimeout = 3 * Second ∧ defaultSessionTimeout = 3000000000 := by
  refine ⟨?_, rfl, rfl⟩
  have hlen : ¬ s.length ≤ 0 := by
    have := List.length_pos.mpr hs
    omega
  rw [newOptions_eq]
  simp only [Apply_cons, Apply_nil, WithServers, WithInterfaceName, Options.zero]
  rw [if_neg hlen, if_neg hn]
  rfl

/-- Witness of C7: scenario A of the spec. -/
theorem C7_scenario_A_witness :
    newOptions "dubbo"
        [WithServers ["127.0.0.1:2181"], WithInterfaceName "org.example.GreetProvider"] =
        Except.ok
          { Servers := ["127.0.0.1:2181"], InterfaceName := "org.example.GreetProvider",
            RegistryGroup := "dubbo", ServiceGroup := "", ServiceVersion := "",
            SessionTimeout := defaultSessionTimeout } ∧
      defaultSessionTimeout = 3 * Second ∧ defaultSessionTimeout = 3000000000 :=
  C7_scenario_A "dubbo" ["127.0.0.1:2181"] "org.example.GreetProvider" (by decide)
    (by decide)

/-- C8: on every list of calls on which `newOptions` succeeds, if the last
`WithSessionTimeout` call has a non-zero argument `d` (positive or negative) the returned
`SessionTimeout` is `d`; the default is used only when the draft timeout is zero after
`Apply`: a non-zero draft timeout is returned unchanged, a zero one becomes
`defaultSessionTimeout`. -/
theorem C8_session_timeout_override (g : String) (calls : List Call) (o : Options)
    (h : newOptions g (build calls) = Except.ok o) :
    (∀ d : Int, LastCall calls (Call.WithSessionTimeout d) → d ≠ 0 → o.SessionTimeout = d) ∧
      ((draft calls).SessionTimeout ≠ 0 → o.SessionTimeout = (draft calls).SessionTimeout) ∧
      ((draft calls).SessionTimeout = 0 → o.SessionTimeout = defaultSessionTimeout) := by
  obtain ⟨_, _, _, _, _, _, _, h8⟩ := newOptions_ok_fields g calls o h
  have hne : (draft calls).SessionTimeout ≠ 0 →
      o.SessionTimeout = (draft calls).SessionTimeout := by
    intro h0
    rw [h8, if_neg h0]
  refine ⟨fun d hlast hd => ?_, hne, fun h0 => ?_⟩
  · have hd2 := draft_SessionTimeout_of_last calls d hlast
    rw [hne (by rw [hd2]; exact hd), hd2]
  · rw [h8, if_pos h0]

/-- Witness of C8: scenario C, `[WithServers("a:1","b:2"), WithInterfaceName("x"),
WithSessionTimeout(10s)]` gives `SessionTimeout = 10s`; a negative timeout is kept too. -/
theorem C8_session_timeout_override_witness :
    (∃ o, newOptions "dubbo"
        (build [Call.WithServers ["a:1", "b:2"], Call.WithInterfaceName "x",
          Call.WithSessionTimeout (10 * Second)]) = Except.ok o ∧
        o.SessionTimeout = 10 * Second) ∧
      (∃ o, newOptions "dubbo"
        (build [Call.WithServers ["a:1"], Call.WithSessionTimeout (-1),
          Call.WithInterfaceName "x"]) = Except.ok o ∧ o.SessionTimeout = -1) :=
  ⟨⟨{ Servers := ["a:1", "b:2"], InterfaceName := "x", RegistryGroup := "dubbo",
      ServiceGroup := "", ServiceVersion := "", SessionTimeout := 10 * Second },
      rfl,
      (C8_session_timeout_override "dubbo"
        [Call.WithServers ["a:1", "b:2"], Call.WithInterfaceName "x",
          Call.WithSessionTimeout (10 * Second)] _ rfl).1 (10 * Second)
        ⟨[Call.WithServers ["a:1", "b:2"], Call.WithInterfaceName "x"], [], rfl, by decide⟩
        (by decide)⟩,
    ⟨{ Servers := ["a:1"], InterfaceName := "x", RegistryGroup := "dubbo",
        ServiceGroup := "", ServiceVersion := "", SessionTimeout := -1 },
      rfl,
      (C8_session_timeout_override "dubbo"
        [Call.WithServers ["a:1"], Call.WithSessionTimeout (-1),
          Call.WithInterfaceName "x"] _ rfl).1 (-1)
        ⟨[Call.WithServers ["a:1"]], [Call.WithInterfaceName "x"], rfl, by decide⟩
        (by decide)⟩⟩

/-- C9: on every list of calls on which `newOptions` succeeds, the returned `RegistryGroup`
is `defaultRegistryGroup` when the draft `RegistryGroup` is empty after `Apply` (no
`WithRegistryGroup` call, or the last one passed the empty string), and otherwise it is the
argument of the last `WithRegistryGroup` call, unchanged. -/
theorem C9_registry_group_default (g : String) (calls : List Call) (o : Options)
    (h : newOptions g (build calls) = Except.ok o) :
    ((draft calls).RegistryGroup = "" → o.RegistryGroup = g) ∧
      ((draft calls).RegistryGroup ≠ "" → o.RegistryGroup = (draft calls).RegistryGroup) ∧
      ((∀ c ∈ calls, c.field ≠ Field.RegistryGroup) →
        (draft calls).RegistryGroup = "" ∧ o.RegistryGroup = g) ∧
      (∀ grp : String, LastCall calls (Call.WithRegistryGroup grp) →
        (draft calls).RegistryGroup = grp ∧ (grp = "" → o.RegistryGroup = g) ∧
          (grp ≠ "" → o.RegistryGroup = grp)) := by
  obtain ⟨_, _, _, _, h5, _⟩ := newOptions_ok_fields g calls o h
  have hpos : (draft calls).RegistryGroup = "" → o.RegistryGroup = g := by
    intro h0
    rw [h5, if_pos h0]
  have hneg : (draft calls).RegistryGroup ≠ "" →
      o.RegistryGroup = (draft calls).RegistryGroup := by
    intro h0
    rw [h5, if_neg h0]
  refine ⟨hpos, hneg, fun hno => ?_, fun grp hlast => ?_⟩
  · have h0 : (draft calls).RegistryGroup = "" := by
      show (Options.zero.Apply (build calls)).RegistryGroup = ""
      rw [Apply_RegistryGroup_frame calls Options.zero hno]
      rfl
    exact ⟨h0, hpos h0⟩
  · have hd := draft_RegistryGroup_of_last calls grp hlast
    refine ⟨hd, fun h0 => hpos (by rw [hd]; exact h0), fun h0 => ?_⟩
    rw [hneg (by rw [hd]; exact h0), hd]

/-- Witness of C9: a non-empty group is kept, an explicit empty one is defaulted. -/
theorem C9_registry_group_default_witness :
    (∃ o, newOptions "dubbo"
        (build [Call.WithServers ["a:1"], Call.WithRegistryGroup "grp",
          Call.WithInterfaceName "x"]) = Except.ok o ∧ o.RegistryGroup = "grp") ∧
      (∃ o, newOptions "dubbo"
        (build [Call.WithServers ["a:1"], Call.WithRegistryGroup "grp",
          Call.WithInterfaceName "x", Call.WithRegistryGroup ""]) = Except.ok o ∧
        o.RegistryGroup = "dubbo") :=
  ⟨⟨{ Servers := ["a:1"], InterfaceName := "x", RegistryGroup := "grp",
      ServiceGroup := "", ServiceVersion := "", SessionTimeout := 3000000000 },
      rfl,
      ((C9_registry_group_default "dubbo"
        [Call.WithServers ["a:1"], Call.WithRegistryGroup "grp",
          Call.WithInterfaceName "x"] _ rfl).2.2.2 "grp"
        ⟨[Call.WithServers ["a:1"]], [Call.WithInterfaceName "x"], rfl, by decide⟩).2.2
        (by decide)⟩,
    ⟨{ Servers := ["a:1"], InterfaceName := "x", RegistryGroup := "dubbo",
        ServiceGroup := "", ServiceVersion := "", SessionTimeout := 3000000000 },
      rfl,
      ((C9_registry_group_default "dubbo"
        [Call.WithServers ["a:1"], Call.WithRegistryGroup "grp",
          Call.WithInterfaceName "x", Call.WithRegistryGroup ""] _ rfl).2.2.2 ""
        ⟨[Call.WithServers ["a:1"], Call.WithRegistryGroup "grp",
          Call.WithInterfaceName "x"], [], rfl, by decide⟩).2.1 rfl⟩⟩

/-- C10: validation and defaulting never change `ServiceGroup` or `ServiceVersion` and never
reject on them: on success the returned `ServiceGroup` and `ServiceVersion` are the draft
values right after `Apply` (the argument of the last `WithServiceGroup` or
`WithServiceVersion` call, or the empty string when there is none), and two lists that differ
only in their `WithServiceGroup` and `WithServiceVersion` calls succeed together or fail
together with the same message. -/
theorem C10_service_fields_untouched (g : String) (calls : List Call) :
    (∀ o, newOptions g (build calls) = Except.ok o →
        o.ServiceGroup = (draft calls).ServiceGroup ∧
          o.ServiceVersion = (draft calls).ServiceVersion) ∧
      ((∀ c ∈ calls, c.field ≠ Field.ServiceGroup) → (draft calls).ServiceGroup = "") ∧
      (∀ x : String, LastCall calls (Call.WithServiceGroup x) →
        (draft calls).ServiceGroup = x) ∧
      ((∀ c ∈ calls, c.field ≠ Field.ServiceVersion) → (draft calls).ServiceVersion = "") ∧
      (∀ v : String, LastCall calls (Call.WithServiceVersion v) →
        (draft calls).ServiceVersion = v) ∧
      (∀ calls2 : List Call, withoutServiceCalls calls2 = withoutServiceCalls calls →
        ((∃ o, newOptions g (build calls) = Except.ok o) ↔
            (∃ o, newOptions g (build calls2) = Except.ok o)) ∧
          (∀ msg, newOptions g (build calls) = Except.error msg ↔
            newOptions g (build calls2) = Except.error msg)) := by
  refine ⟨fun o h => ?_, fun hno => ?_, fun x hlast => draft_ServiceGroup_of_last calls x hlast,
    fun hno => ?_, fun v hlast => draft_ServiceVersion_of_last calls v hlast,
    fun calls2 hsame => ?_⟩
  · obtain ⟨_, _, _, _, _, h6, h7, _⟩ := newOptions_ok_fields g calls o h
    exact ⟨h6, h7⟩
  · show (Options.zero.Apply (build calls)).ServiceGroup = ""
    rw [Apply_ServiceGroup_frame calls Options.zero hno]
    rfl
  · show (Options.zero.Apply (build calls)).ServiceVersion = ""
    rw [Apply_ServiceVersion_frame calls Options.zero hno]
    rfl
  · have a1 := Apply_filter_service calls Options.zero Options.zero ⟨rfl, rfl, rfl, rfl⟩
    have a2 := Apply_filter_service calls2 Options.zero Options.zero ⟨rfl, rfl, rfl, rfl⟩
    have e : calls2.filter (fun c =>
        decide (c.field ≠ Field.ServiceGroup ∧ c.field ≠ Field.ServiceVersion)) =
        calls.filter (fun c =>
          decide (c.field ≠ Field.ServiceGroup ∧ c.field ≠ Field.ServiceVersion)) := hsame
    rw [e] at a2
    have hS : (draft calls).Servers = (draft calls2).Servers := a1.1.trans a2.1.symm
    have hN : (draft calls).InterfaceName = (draft calls2).InterfaceName :=
      a1.2.1.trans a2.2.1.symm
    rw [newOptions_build, newOptions_build, hS, hN]
    by_cases hs : (draft calls2).Servers.length ≤ 0
    · simp [hs]
    · by_cases hn : (draft calls2).InterfaceName = ""
      · simp [hs, hn]
      · simp [hs, hn]

/-- Witness of C10: the two service fields come back as set, and removing or changing the
calls that set them keeps the outcome a success. -/
theorem C10_service_fields_untouched_witness :
    (∃ o, newOptions "dubbo"
        (build [Call.WithServers ["a:1"], Call.WithServiceGroup "sg",
          Call.WithInterfaceName "x", Call.WithServiceVersion "1.0"]) = Except.ok o ∧
        o.ServiceGroup = "sg" ∧ o.ServiceVersion = "1.0") ∧
      ((∃ o, newOptions "dubbo"
          (build [Call.WithServers ["a:1"], Call.WithServiceGroup "sg",
            Call.WithInterfaceName "x", Call.WithServiceVersion "1.0"]) = Except.ok o) ↔
        (∃ o, newOptions "dubbo"
          (build [Call.WithServiceGroup "", Call.WithServers ["a:1"],
            Call.WithInterfaceName "x"]) = Except.ok o)) :=
  ⟨⟨{ Servers := ["a:1"], InterfaceName := "x", RegistryGroup := "dubbo",
        ServiceGroup := "sg", ServiceVersion := "1.0", SessionTimeout := 3000000000 },
      rfl,
      (C10_service_fields_untouched "dubbo"
        [Call.WithServers ["a:1"], Call.WithServiceGroup "sg",
          Call.WithInterfaceName "x", Call.WithServiceVersion "1.0"]).1 _ rfl⟩,
    ((C10_service_fields_untouched "dubbo"
      [Call.WithServers ["a:1"], Call.WithServiceGroup "sg",
        Call.WithInterfaceName "x", Call.WithServiceVersion "1.0"]).2.2.2.2.2
      [Call.WithServiceGroup "", Call.WithServers ["a:1"], Call.WithInterfaceName "x"]
      (by decide)).1⟩

/-! ## A field of the draft depends only on the calls that write it -/

theorem callsOf_cons (f : Field) (c : Call) (cs : List Call) :
    callsOf f (c :: cs) = if c.field = f then c :: callsOf f cs else callsOf f cs := by
  by_cases h : c.field = f <;> simp [callsOf, List.filter_cons, h]

theorem Options_ext (a b : Options) (h1 : a.Servers = b.Servers)
    (h2 : a.InterfaceName = b.InterfaceName) (h3 : a.RegistryGroup = b.RegistryGroup)
    (h4 : a.ServiceGroup = b.ServiceGroup) (h5 : a.ServiceVersion = b.ServiceVersion)
    (h6 : a.SessionTimeout = b.SessionTimeout) : a = b := by
  cases a
  cases b
  simp_all

theorem Apply_Servers_callsOf (cs : List Call) (o o2 : Options)
    (h : o.Servers = o2.Servers) :
    (o.Apply (build cs)).Servers =
      (o2.Apply (build (callsOf Field.Servers cs))).Servers := by
  induction cs generalizing o o2 with
  | nil => exact h
  | cons c cs ih =>
    rw [callsOf_cons]
    cases c <;> simp only [Call.field, reduceCtorEq, if_true, if_false, build_cons,
      Apply_cons] <;> apply ih <;> first | exact h | rfl

theorem Apply_InterfaceName_callsOf (cs : List Call) (o o2 : Options)
    (h : o.InterfaceName = o2.InterfaceName) :
    (o.Apply (build cs)).InterfaceName =
      (o2.Apply (build (callsOf Field.InterfaceName cs))).InterfaceName := by
  induction cs generalizing o o2 with
  | nil => exact h
  | cons c cs ih =>
    rw [callsOf_cons]
    cases c <;> simp only [Call.field, reduceCtorEq, if_true, if_false, build_cons,
      Apply_cons] <;> apply ih <;> first | exact h | rfl

theorem Apply_RegistryGroup_callsOf (cs : List Call) (o o2 : Options)
    (h : o.RegistryGroup = o2.RegistryGroup) :
    (o.Apply (build cs)).RegistryGroup =
      (o2.Apply (build (callsOf Field.RegistryGroup cs))).RegistryGroup := by
  induction cs generalizing o o2 with
  | nil => exact h
  | cons c cs ih =>
    rw [callsOf_cons]
    cases c <;> simp only [Call.field, reduceCtorEq, if_true, if_false, build_cons,
      Apply_cons] <;> apply ih <;> first | exact h | rfl

theorem Apply_ServiceGroup_callsOf (cs : List Call) (o o2 : Options)
    (h : o.ServiceGroup = o2.ServiceGroup) :
    (o.Apply (build cs)).ServiceGroup =
      (o2.Apply (build (callsOf Field.ServiceGroup cs))).ServiceGroup := by
  induction cs generalizing o o2 with
  | nil => exact h
  | cons c cs ih =>
    rw [callsOf_cons]
    cases c <;> simp only [Call.field, reduceCtorEq, if_true, if_false, build_cons,
      Apply_cons] <;> apply ih <;> first | exact h | rfl

theorem Apply_ServiceVersion_callsOf (cs : List Call) (o o2 : Options)
    (h : o.ServiceVersion = o2.ServiceVersion) :
    (o.Apply (build cs)).ServiceVersion =
      (o2.Apply (build (callsOf Field.ServiceVersion cs))).ServiceVersion := by
  induction cs generalizing o o2 with
  | nil => exact h
  | cons c cs ih =>
    rw [callsOf_cons]
    cases c <;> simp only [Call.field, reduceCtorEq, if_true, if_false, build_cons,
      Apply_cons] <;> apply ih <;> first | exact h | rfl

theorem Apply_SessionTimeout_callsOf (cs : List Call) (o o2 : Options)
    (h : o.SessionTimeout = o2.SessionTimeout) :
    (o.Apply (build cs)).SessionTimeout =
      (o2.Apply (build (callsOf Field.SessionTimeout cs))).SessionTimeout := by
  induction cs generalizing o o2 with
  | nil => exact h
  | cons c cs ih =>
    rw [callsOf_cons]
    cases c <;> simp only [Call.field, reduceCtorEq, if_true, if_false, build_cons,
      Apply_cons] <;> apply ih <;> first | exact h | rfl

/-- Two lists with the same calls per field, in the same order, give the same draft from the
same starting draft. -/
theorem Apply_eq_of_callsOf_eq (calls1 calls2 : List Call)
    (h : ∀ f : Field, callsOf f calls1 = callsOf f calls2) (o : Options) :
    o.Apply (build calls1) = o.Apply (build calls2) := by
  apply Options_ext
  · rw [Apply_Servers_callsOf calls1 o o rfl, Apply_Servers_callsOf calls2 o o rfl,
      h Field.Servers]
  · rw [Apply_InterfaceName_callsOf calls1 o o rfl, Apply_InterfaceName_callsOf calls2 o o rfl,
      h Field.InterfaceName]
  · rw [Apply_RegistryGroup_callsOf calls1 o o rfl, Apply_RegistryGroup_callsOf calls2 o o rfl,
      h Field.RegistryGroup]
  · rw [Apply_ServiceGroup_callsOf calls1 o o rfl, Apply_ServiceGroup_callsOf calls2 o o rfl,
      h Field.ServiceGroup]
  · rw [Apply_ServiceVersion_callsOf calls1 o o rfl, Apply_ServiceVersion_callsOf calls2 o o rfl,
      h Field.ServiceVersion]
  · rw [Apply_SessionTimeout_callsOf calls1 o o rfl, Apply_SessionTimeout_callsOf calls2 o o rfl,
      h Field.SessionTimeout]

/-- Two lists with the same calls per field are permutations of each other. -/
theorem perm_of_callsOf_eq (calls1 calls2 : List Call)
    (h : ∀ f : Field, callsOf f calls1 = callsOf f calls2) : calls1.Perm calls2 := by
  rw [List.perm_iff_count]
  intro a
  have e1 : List.count a (callsOf a.field calls1) = List.count a calls1 :=
    List.count_filter (by simp)
  have e2 : List.count a (callsOf a.field calls2) = List.count a calls2 :=
    List.count_filter (by simp)
  rw [← e1, ← e2, h a.field]

theorem callsOf_withoutCallsOf (f f2 : Field) (hne : f2 ≠ f) (calls : List Call) :
    callsOf f2 (withoutCallsOf f calls) = callsOf f2 calls := by
  induction calls with
  | nil => rfl
  | cons c cs ih =>
    by_cases h1 : c.field = f
    · have h2 : c.field ≠ f2 := fun e => hne (e.symm.trans h1)
      have e : withoutCallsOf f (c :: cs) = withoutCallsOf f cs := by
        simp [withoutCallsOf, List.filter_cons, h1]
      rw [e, ih, callsOf_cons, if_neg h2]
    · have e : withoutCallsOf f (c :: cs) = c :: withoutCallsOf f cs := by
        simp [withoutCallsOf, List.filter_cons, h1]
      rw [e, callsOf_cons, callsOf_cons, ih]

theorem field_ne_of_mem_withoutCallsOf (f : Field) (calls : List Call) :
    ∀ c ∈ withoutCallsOf f calls, c.field ≠ f := by
  intro c hc
  have := (List.mem_filter.mp hc).2
  simpa using this

/-- Removing the calls that write `f` leaves every other field of the draft as it was. -/
theorem draft_withoutCallsOf_other (f : Field) (calls : List Call) :
    (f ≠ Field.Servers →
        (draft (withoutCallsOf f calls)).Servers = (draft calls).Servers) ∧
      (f ≠ Field.InterfaceName →
        (draft (withoutCallsOf f calls)).InterfaceName = (draft calls).InterfaceName) ∧
      (f ≠ Field.RegistryGroup →
        (draft (withoutCallsOf f calls)).RegistryGroup = (draft calls).RegistryGroup) ∧
      (f ≠ Field.ServiceGroup →
        (draft (withoutCallsOf f calls)).ServiceGroup = (draft calls).ServiceGroup) ∧
      (f ≠ Field.ServiceVersion →
        (draft (withoutCallsOf f calls)).ServiceVersion = (draft calls).ServiceVersion) ∧
      (f ≠ Field.SessionTimeout →
        (draft (withoutCallsOf f calls)).SessionTimeout = (draft calls).SessionTimeout) := by
  refine ⟨?_, ?_, ?_, ?_, ?_, ?_⟩ <;> intro hne
  · show (Options.zero.Apply (build (withoutCallsOf f calls))).Servers =
      (Options.zero.Apply (build calls)).Servers
    rw [Apply_Servers_callsOf (withoutCallsOf f calls) _ _ rfl,
      Apply_Servers_callsOf calls _ _ rfl,
      callsOf_withoutCallsOf f Field.Servers (Ne.symm hne) calls]
  · show (Options.zero.Apply (build (withoutCallsOf f calls))).InterfaceName =
      (Options.zero.Apply (build calls)).InterfaceName
    rw [Apply_InterfaceName_callsOf (withoutCallsOf f calls) _ _ rfl,
      Apply_InterfaceName_callsOf calls _ _ rfl,
      callsOf_withoutCallsOf f Field.InterfaceName (Ne.symm hne) calls]
  · show (Options.zero.Apply (build (withoutCallsOf f calls))).RegistryGroup =
      (Options.zero.Apply (build calls)).RegistryGroup
    rw [Apply_RegistryGroup_callsOf (withoutCallsOf f calls) _ _ rfl,
      Apply_RegistryGroup_callsOf calls _ _ rfl,
      callsOf_withoutCallsOf f Field.RegistryGroup (Ne.symm hne) calls]
  · show (Options.zero.Apply (build (withoutCallsOf f calls))).ServiceGroup =
      (Options.zero.Apply (build calls)).ServiceGroup
    rw [Apply_ServiceGroup_callsOf (withoutCallsOf f calls) _ _ rfl,
      Apply_ServiceGroup_callsOf calls _ _ rfl,
      callsOf_withoutCallsOf f Field.ServiceGroup (Ne.symm hne) calls]
  · show (Options.zero.Apply (build (withoutCallsOf f calls))).ServiceVersion =
      (Options.zero.Apply (build calls)).ServiceVersion
    rw [Apply_ServiceVersion_callsOf (withoutCallsOf f calls) _ _ rfl,
      Apply_ServiceVersion_callsOf calls _ _ rfl,
      callsOf_withoutCallsOf f Field.ServiceVersion (Ne.symm hne) calls]
  · show (Options.zero.Apply (build (withoutCallsOf f calls))).SessionTimeout =
      (Options.zero.Apply (build calls)).SessionTimeout
    rw [Apply_SessionTimeout_callsOf (withoutCallsOf f calls) _ _ rfl,
      Apply_SessionTimeout_callsOf calls _ _ rfl,
      callsOf_withoutCallsOf f Field.SessionTimeout (Ne.symm hne) calls]

/-- The two panic messages of `newOptions` are different strings. -/
theorem messages_ne :
    "Please specify at least one zookeeper server address. e.g. WithServers(\"127.0.0.1:2181\")" ≠
      "Please specify target InterfaceName. e.g. WithInterfaceName(\"org.cloudwego.kitex.samples.api.GreetProvider\")" := by
  decide

/-- The result of `newOptions` is a function of the draft. -/
theorem newOptions_congr_draft (g : String) (calls1 calls2 : List Call)
    (h : draft calls1 = draft calls2) :
    newOptions g (build calls1) = newOptions g (build calls2) := by
  rw [newOptions_build, newOptions_build, h]

/-- When the draft holds the zero value in `Servers`, removing every call that writes
`Servers` gives the same draft. -/
theorem draft_withoutCallsOf_Servers (calls : List Call)
    (h : (draft calls).Servers = []) :
    draft (withoutCallsOf Field.Servers calls) = draft calls := by
  have hz : (draft (withoutCallsOf Field.Servers calls)).Servers = (draft calls).Servers := by
    show (Options.zero.Apply (build (withoutCallsOf Field.Servers calls))).Servers = _
    rw [Apply_Servers_frame _ _ (field_ne_of_mem_withoutCallsOf Field.Servers calls)]
    exact h.symm
  obtain ⟨h1, h2, h3, h4, h5, h6⟩ := draft_withoutCallsOf_other Field.Servers calls
  apply Options_ext
  · exact hz
  · exact h2 (by decide)
  · exact h3 (by decide)
  · exact h4 (by decide)
  · exact h5 (by decide)
  · exact h6 (by decide)

/-- When the draft holds the zero value in `InterfaceName`, removing every call that writes
`InterfaceName` gives the same draft. -/
theorem draft_withoutCallsOf_InterfaceName (calls : List Call)
    (h : (draft calls).InterfaceName = "") :
    draft (withoutCallsOf Field.InterfaceName calls) = draft calls := by
  have hz : (draft (withoutCallsOf Field.InterfaceName calls)).InterfaceName = (draft calls).InterfaceName := by
    show (Options.zero.Apply (build (withoutCallsOf Field.InterfaceName calls))).InterfaceName = _
    rw [Apply_InterfaceName_frame _ _ (field_ne_of_mem_withoutCallsOf Field.InterfaceName calls)]
    exact h.symm
  obtain ⟨h1, h2, h3, h4, h5, h6⟩ := draft_withoutCallsOf_other Field.InterfaceName calls
  apply Options_ext
  · exact h1 (by decide)
  · exact hz
  · exact h3 (by decide)
  · exact h4 (by decide)
  · exact h5 (by decide)
  · exact h6 (by decide)

/-- When the draft holds the zero value in `RegistryGroup`, removing every call that writes
`RegistryGroup` gives the same draft. -/
theorem draft_withoutCallsOf_RegistryGroup (calls : List Call)
    (h : (draft calls).RegistryGroup = "") :
    draft (withoutCallsOf Field.RegistryGroup calls) = draft calls := by
  have hz : (draft (withoutCallsOf Field.RegistryGroup calls)).RegistryGroup = (draft calls).RegistryGroup := by
    show (Options.zero.Apply (build (withoutCallsOf Field.RegistryGroup calls))).RegistryGroup = _
    rw [Apply_RegistryGroup_frame _ _ (field_ne_of_mem_withoutCallsOf Field.RegistryGroup calls)]
    exact h.symm
  obtain ⟨h1, h2, h3, h4, h5, h6⟩ := draft_withoutCallsOf_other Field.RegistryGroup calls
  apply Options_ext
  · exact h1 (by decide)
  · exact h2 (by decide)
  · exact hz
  · exact h4 (by decide)
  · exact h5 (by decide)
  · exact h6 (by decide)

/-- When the draft holds the zero value in `SessionTimeout`, removing every call that writes
`SessionTimeout` gives the same draft. -/
theorem draft_withoutCallsOf_SessionTimeout (calls : List Call)
    (h : (draft calls).SessionTimeout = 0) :
    draft (withoutCallsOf Field.SessionTimeout calls) = draft calls := by
  have hz : (draft (withoutCallsOf Field.SessionTimeout calls)).SessionTimeout = (draft calls).SessionTimeout := by
    show (Options.zero.Apply (build (withoutCallsOf Field.SessionTimeout calls))).SessionTimeout = _
    rw [Apply_SessionTimeout_frame _ _ (field_ne_of_mem_withoutCallsOf Field.SessionTimeout calls)]
    exact h.symm
  obtain ⟨h1, h2, h3, h4, h5, h6⟩ := draft_withoutCallsOf_other Field.SessionTimeout calls
  apply Options_ext
  · exact h1 (by decide)
  · exact h2 (by decide)
  · exact h3 (by decide)
  · exact h4 (by decide)
  · exact h5 (by decide)
  · exact hz

/-! ## The last call of a function wins, from any starting draft -/

theorem Apply_Servers_of_last (o : Options) (calls : List Call) (a : List String)
    (h : LastCall calls (Call.WithServers a)) : (o.Apply (build calls)).Servers = a := by
  obtain ⟨pre, post, rfl, hpost⟩ := h
  rw [build_append, Apply_append, build_cons, Apply_cons,
    Apply_Servers_frame post _ hpost]
  rfl

theorem Apply_InterfaceName_of_last (o : Options) (calls : List Call) (a : String)
    (h : LastCall calls (Call.WithInterfaceName a)) : (o.Apply (build calls)).InterfaceName = a := by
  obtain ⟨pre, post, rfl, hpost⟩ := h
  rw [build_append, Apply_append, build_cons, Apply_cons,
    Apply_InterfaceName_frame post _ hpost]
  rfl

theorem Apply_RegistryGroup_of_last (o : Options) (calls : List Call) (a : String)
    (h : LastCall calls (Call.WithRegistryGroup a)) : (o.Apply (build calls)).RegistryGroup = a := by
  obtain ⟨pre, post, rfl, hpost⟩ := h
  rw [build_append, Apply_append, build_cons, Apply_cons,
    Apply_RegistryGroup_frame post _ hpost]
  rfl

theorem Apply_ServiceGroup_of_last (o : Options) (calls : List Call) (a : String)
    (h : LastCall calls (Call.WithServiceGroup a)) : (o.Apply (build calls)).ServiceGroup = a := by
  obtain ⟨pre, post, rfl, hpost⟩ := h
  rw [build_append, Apply_append, build_cons, Apply_cons,
    Apply_ServiceGroup_frame post _ hpost]
  rfl

theorem Apply_ServiceVersion_of_last (o : Options) (calls : List Call) (a : String)
    (h : LastCall calls (Call.WithServiceVersion a)) : (o.Apply (build calls)).ServiceVersion = a := by
  obtain ⟨pre, post, rfl, hpost⟩ := h
  rw [build_append, Apply_append, build_cons, Apply_cons,
    Apply_ServiceVersion_frame post _ hpost]
  rfl

theorem Apply_SessionTimeout_of_last (o : Options) (calls : List Call) (a : Int)
    (h : LastCall calls (Call.WithSessionTimeout a)) : (o.Apply (build calls)).SessionTimeout = a := by
  obtain ⟨pre, post, rfl, hpost⟩ := h
  rw [build_append, Apply_append, build_cons, Apply_cons,
    Apply_SessionTimeout_frame post _ hpost]
  rfl

/-- C11: order among setters of different fields is irrelevant. Two lists of calls of the six
setters that hold the same calls per field, in the same relative order, are permutations of
each other, `Apply` produces equal drafts from equal starting drafts, and `newOptions` has the
same outcome on both (the same panic message or equal `Options` values). Order among setters
of the same field matters, the last one wins: for each of the six setters, from any starting
draft and on any list, the field holds the argument of the last call of that setter, and two
calls of the setter with different arguments give different drafts when swapped. -/
theorem C11_order_across_fields_irrelevant (g : String) (calls1 calls2 : List Call)
    (hord : ∀ f : Field, callsOf f calls1 = callsOf f calls2) :
    calls1.Perm calls2 ∧
      (∀ o : Options, o.Apply (build calls1) = o.Apply (build calls2)) ∧
      newOptions g (build calls1) = newOptions g (build calls2) ∧
      (∀ (o : Options) (a b : List String), a ≠ b →
        (o.Apply [WithServers a, WithServers b]).Servers = b ∧
          (o.Apply [WithServers b, WithServers a]).Servers = a ∧
          o.Apply [WithServers a, WithServers b] ≠
            o.Apply [WithServers b, WithServers a]) ∧
      (∀ (o : Options) (a b : String), a ≠ b →
        (o.Apply [WithInterfaceName a, WithInterfaceName b]).InterfaceName = b ∧
          (o.Apply [WithInterfaceName b, WithInterfaceName a]).InterfaceName = a ∧
          o.Apply [WithInterfaceName a, WithInterfaceName b] ≠
            o.Apply [WithInterfaceName b, WithInterfaceName a]) ∧
      (∀ (o : Options) (a b : String), a ≠ b →
        (o.Apply [WithRegistryGroup a, WithRegistryGroup b]).RegistryGroup = b ∧
          (o.Apply [WithRegistryGroup b, WithRegistryGroup a]).RegistryGroup = a ∧
          o.Apply [WithRegistryGroup a, WithRegistryGroup b] ≠
            o.Apply [WithRegistryGroup b, WithRegistryGroup a]) ∧
      (∀ (o : Options) (a b : String), a ≠ b →
        (o.Apply [WithServiceGroup a, WithServiceGroup b]).ServiceGroup = b ∧
          (o.Apply [WithServiceGroup b, WithServiceGroup a]).ServiceGroup = a ∧
          o.Apply [WithServiceGroup a, WithServiceGroup b] ≠
            o.Apply [WithServiceGroup b, WithServiceGroup a]) ∧
      (∀ (o : Options) (a b : String), a ≠ b →
        (o.Apply [WithServiceVersion a, WithServiceVersion b]).ServiceVersion = b ∧
          (o.Apply [WithServiceVersion b, WithServiceVersion a]).ServiceVersion = a ∧
          o.Apply [WithServiceVersion a, WithServiceVersion b] ≠
            o.Apply [WithServiceVersion b, WithServiceVersion a]) ∧
      (∀ (o : Options) (a b : Int), a ≠ b →
        (o.Apply [WithSessionTimeout a, WithSessionTimeout b]).SessionTimeout = b ∧
          (o.Apply [WithSessionTimeout b, WithSessionTimeout a]).SessionTimeout = a ∧
          o.Apply [WithSessionTimeout a, WithSessionTimeout b] ≠
            o.Apply [WithSessionTimeout b, WithSessionTimeout a]) ∧
      (∀ (o : Options) (calls : List Call) (a : List String),
        LastCall calls (Call.WithServers a) → (o.Apply (build calls)).Servers = a) ∧
      (∀ (o : Options) (calls : List Call) (a : String),
        LastCall calls (Call.WithInterfaceName a) → (o.Apply (build calls)).InterfaceName = a) ∧
      (∀ (o : Options) (calls : List Call) (a : String),
        LastCall calls (Call.WithRegistryGroup a) → (o.Apply (build calls)).RegistryGroup = a) ∧
      (∀ (o : Options) (calls : List Call) (a : String),
        LastCall calls (Call.WithServiceGroup a) → (o.Apply (build calls)).ServiceGroup = a) ∧
      (∀ (o : Options) (calls : List Call) (a : String),
        LastCall calls (Call.WithServiceVersion a) → (o.Apply (build calls)).ServiceVersion = a) ∧
      (∀ (o : Options) (calls : List Call) (a : Int),
        LastCall calls (Call.WithSessionTimeout a) → (o.Apply (build calls)).SessionTimeout = a) := by
  refine ⟨perm_of_callsOf_eq calls1 calls2 hord, Apply_eq_of_callsOf_eq calls1 calls2 hord,
    newOptions_congr_draft g calls1 calls2 (Apply_eq_of_callsOf_eq calls1 calls2 hord _),
    fun o a b hne => ⟨rfl, rfl, fun e => hne (congrArg Options.Servers e).symm⟩,
    fun o a b hne => ⟨rfl, rfl, fun e => hne (congrArg Options.InterfaceName e).symm⟩,
    fun o a b hne => ⟨rfl, rfl, fun e => hne (congrArg Options.RegistryGroup e).symm⟩,
    fun o a b hne => ⟨rfl, rfl, fun e => hne (congrArg Options.ServiceGroup e).symm⟩,
    fun o a b hne => ⟨rfl, rfl, fun e => hne (congrArg Options.ServiceVersion e).symm⟩,
    fun o a b hne => ⟨rfl, rfl, fun e => hne (congrArg Options.SessionTimeout e).symm⟩,
    fun o calls a hlast => Apply_Servers_of_last o calls a hlast,
    fun o calls a hlast => Apply_InterfaceName_of_last o calls a hlast,
    fun o calls a hlast => Apply_RegistryGroup_of_last o calls a hlast,
    fun o calls a hlast => Apply_ServiceGroup_of_last o calls a hlast,
    fun o calls a hlast => Apply_ServiceVersion_of_last o calls a hlast,
    fun o calls a hlast => Apply_SessionTimeout_of_last o calls a hlast⟩

/-- Witness of C11: the same three calls in two orders give the same outcome, and of two
`WithSessionTimeout` calls the later one decides the draft. -/
theorem C11_order_across_fields_irrelevant_witness :
    newOptions "dubbo"
        (build [Call.WithServers ["a:1"], Call.WithInterfaceName "x",
          Call.WithSessionTimeout 5]) =
      newOptions "dubbo"
        (build [Call.WithSessionTimeout 5, Call.WithInterfaceName "x",
          Call.WithServers ["a:1"]]) ∧
      (Options.zero.Apply
        (build [Call.WithSessionTimeout 5, Call.WithServers ["a:1"],
          Call.WithSessionTimeout 7])).SessionTimeout = 7 :=
  ⟨(C11_order_across_fields_irrelevant "dubbo"
      [Call.WithServers ["a:1"], Call.WithInterfaceName "x", Call.WithSessionTimeout 5]
      [Call.WithSessionTimeout 5, Call.WithInterfaceName "x", Call.WithServers ["a:1"]]
      (fun f => by cases f <;> rfl)).2.2.1,
    (C11_order_across_fields_irrelevant "dubbo"
      [Call.WithServers ["a:1"], Call.WithInterfaceName "x", Call.WithSessionTimeout 5]
      [Call.WithSessionTimeout 5, Call.WithInterfaceName "x", Call.WithServers ["a:1"]]
      (fun f => by cases f <;> rfl)).2.2.2.2.2.2.2.2.2.2.2.2.2.2 Options.zero
      [Call.WithSessionTimeout 5, Call.WithServers ["a:1"], Call.WithSessionTimeout 7] 7
      ⟨[Call.WithSessionTimeout 5, Call.WithServers ["a:1"]], [], rfl, by decide⟩⟩

/-- C14: each of the six setters overwrites exactly one field of the draft and leaves the other
five unchanged: for every draft `o` and every argument, the field named by the setter equals
the argument afterwards, whatever it was before, and every other field equals its value in
`o`. -/
theorem C14_setters_write_one_field (o : Options) (s : List String) (n rg sg sv : String)
    (d : Int) :
    (((WithServers s).F o).Servers = s ∧
        ((WithServers s).F o).InterfaceName = o.InterfaceName ∧
        ((WithServers s).F o).RegistryGroup = o.RegistryGroup ∧
        ((WithServers s).F o).ServiceGroup = o.ServiceGroup ∧
        ((WithServers s).F o).ServiceVersion = o.ServiceVersion ∧
        ((WithServers s).F o).SessionTimeout = o.SessionTimeout) ∧
      (((WithInterfaceName n).F o).Servers = o.Servers ∧
        ((WithInterfaceName n).F o).InterfaceName = n ∧
        ((WithInterfaceName n).F o).RegistryGroup = o.RegistryGroup ∧
        ((WithInterfaceName n).F o).ServiceGroup = o.ServiceGroup ∧
        ((WithInterfaceName n).F o).ServiceVersion = o.ServiceVersion ∧
        ((WithInterfaceName n).F o).SessionTimeout = o.SessionTimeout) ∧
      (((WithRegistryGroup rg).F o).Servers = o.Servers ∧
        ((WithRegistryGroup rg).F o).InterfaceName = o.InterfaceName ∧
        ((WithRegistryGroup rg).F o).RegistryGroup = rg ∧
        ((WithRegistryGroup rg).F o).ServiceGroup = o.ServiceGroup ∧
        ((WithRegistryGroup rg).F o).ServiceVersion = o.ServiceVersion ∧
        ((WithRegistryGroup rg).F o).SessionTimeout = o.SessionTimeout) ∧
      (((WithServiceGroup sg).F o).Servers = o.Servers ∧
        ((WithServiceGroup sg).F o).InterfaceName = o.InterfaceName ∧
        ((WithServiceGroup sg).F o).RegistryGroup = o.RegistryGroup ∧
        ((WithServiceGroup sg).F o).ServiceGroup = sg ∧
        ((WithServiceGroup sg).F o).ServiceVersion = o.ServiceVersion ∧
        ((WithServiceGroup sg).F o).SessionTimeout = o.SessionTimeout) ∧
      (((WithServiceVersion sv).F o).Servers = o.Servers ∧
        ((WithServiceVersion sv).F o).InterfaceName = o.InterfaceName ∧
        ((WithServiceVersion sv).F o).RegistryGroup = o.RegistryGroup ∧
        ((WithServiceVersion sv).F o).ServiceGroup = o.ServiceGroup ∧
        ((WithServiceVersion sv).F o).ServiceVersion = sv ∧
        ((WithServiceVersion sv).F o).SessionTimeout = o.SessionTimeout) ∧
      (((WithSessionTimeout d).F o).Servers = o.Servers ∧
        ((WithSessionTimeout d).F o).InterfaceName = o.InterfaceName ∧
        ((WithSessionTimeout d).F o).RegistryGroup = o.RegistryGroup ∧
        ((WithSessionTimeout d).F o).ServiceGroup = o.ServiceGroup ∧
        ((WithSessionTimeout d).F o).ServiceVersion = o.ServiceVersion ∧
        ((WithSessionTimeout d).F o).SessionTimeout = d) :=
  ⟨⟨rfl, rfl, rfl, rfl, rfl, rfl⟩,
    ⟨rfl, rfl, rfl, rfl, rfl, rfl⟩,
    ⟨rfl, rfl, rfl, rfl, rfl, rfl⟩,
    ⟨rfl, rfl, rfl, rfl, rfl, rfl⟩,
    ⟨rfl, rfl, rfl, rfl, rfl, rfl⟩,
    ⟨rfl, rfl, rfl, rfl, rfl, rfl⟩⟩

/-- C16: supplying a setter does not by itself satisfy a required field. A list whose last
`WithServers` call has no argument fails with the missing-servers message, and a list whose
last `WithInterfaceName` call passes the empty string fails; in both cases the outcome is the
one of the same list with every call of that setter removed, whatever earlier calls of the
setter had passed. -/
theorem C16_empty_last_call_is_unset (g : String) (calls : List Call) :
    (LastCall calls (Call.WithServers []) →
        newOptions g (build calls) =
            Except.error "Please specify at least one zookeeper server address. e.g. WithServers(\"127.0.0.1:2181\")" ∧
          newOptions g (build calls) =
            newOptions g (build (withoutCallsOf Field.Servers calls))) ∧
      (LastCall calls (Call.WithInterfaceName "") →
        (∃ msg, newOptions g (build calls) = Except.error msg) ∧
          (1 ≤ (draft calls).Servers.length →
            newOptions g (build calls) =
              Except.error "Please specify target InterfaceName. e.g. WithInterfaceName(\"org.cloudwego.kitex.samples.api.GreetProvider\")") ∧
          newOptions g (build calls) =
            newOptions g (build (withoutCallsOf Field.InterfaceName calls))) := by
  constructor
  · intro hlast
    have h0 : (draft calls).Servers = [] := draft_Servers_of_last calls [] hlast
    refine ⟨?_, (newOptions_congr_draft g _ _ (draft_withoutCallsOf_Servers calls h0)).symm⟩
    rw [newOptions_build, if_pos (by rw [h0]; exact Nat.le_refl 0)]
  · intro hlast
    have h0 : (draft calls).InterfaceName = "" := draft_InterfaceName_of_last calls "" hlast
    refine ⟨?_, ?_,
      (newOptions_congr_draft g _ _ (draft_withoutCallsOf_InterfaceName calls h0)).symm⟩
    · rw [newOptions_build]
      by_cases hs : (draft calls).Servers.length ≤ 0
      · exact ⟨_, if_pos hs⟩
      · rw [if_neg hs, if_pos h0]
        exact ⟨_, rfl⟩
    · intro hs
      rw [newOptions_build, if_neg (by omega), if_pos h0]

/-- Witness of C16: `newOptions([WithServers("a:1"), WithInterfaceName("x"), WithServers()])`
fails with the missing-servers message. -/
theorem C16_empty_last_call_is_unset_witness :
    newOptions "dubbo"
        (build [Call.WithServers ["a:1"], Call.WithInterfaceName "x", Call.WithServers []]) =
      Except.error "Please specify at least one zookeeper server address. e.g. WithServers(\"127.0.0.1:2181\")" :=
  ((C16_empty_last_call_is_unset "dubbo"
    [Call.WithServers ["a:1"], Call.WithInterfaceName "x", Call.WithServers []]).1
    ⟨[Call.WithServers ["a:1"], Call.WithInterfaceName "x"], [], rfl, by decide⟩).1

/-- C17: an explicit `WithSessionTimeout(0)` cannot be told apart from not setting the
timeout. On every list on which `newOptions` succeeds and whose last `WithSessionTimeout` call
has argument 0, the returned `SessionTimeout` is `defaultSessionTimeout`, and the list with
every `WithSessionTimeout` call removed returns the same `Options` value; likewise a last
`WithRegistryGroup("")` yields `defaultRegistryGroup`, as does the list without any
`WithRegistryGroup` call. -/
theorem C17_explicit_zero_is_default (g : String) (calls : List Call) (o : Options)
    (h : newOptions g (build calls) = Except.ok o) :
    (LastCall calls (Call.WithSessionTimeout 0) →
        o.SessionTimeout = defaultSessionTimeout ∧
          newOptions g (build (withoutCallsOf Field.SessionTimeout calls)) = Except.ok o) ∧
      (LastCall calls (Call.WithRegistryGroup "") →
        o.RegistryGroup = g ∧
          newOptions g (build (withoutCallsOf Field.RegistryGroup calls)) = Except.ok o) := by
  obtain ⟨_, _, _, _, h5, _, _, h8⟩ := newOptions_ok_fields g calls o h
  constructor
  · intro hlast
    have h0 : (draft calls).SessionTimeout = 0 := draft_SessionTimeout_of_last calls 0 hlast
    refine ⟨by rw [h8, if_pos h0], ?_⟩
    rw [newOptions_congr_draft g _ _ (draft_withoutCallsOf_SessionTimeout calls h0)]
    exact h
  · intro hlast
    have h0 : (draft calls).RegistryGroup = "" := draft_RegistryGroup_of_last calls "" hlast
    refine ⟨by rw [h5, if_pos h0], ?_⟩
    rw [newOptions_congr_draft g _ _ (draft_withoutCallsOf_RegistryGroup calls h0)]
    exact h

/-- Witness of C17: a 10 second timeout overwritten by an explicit 0 comes back as the
default. -/
theorem C17_explicit_zero_is_default_witness :
    ∃ o, newOptions "dubbo"
        (build [Call.WithServers ["a:1"], Call.WithSessionTimeout (10 * Second),
          Call.WithInterfaceName "x", Call.WithSessionTimeout 0]) = Except.ok o ∧
      o.SessionTimeout = defaultSessionTimeout ∧
      newOptions "dubbo"
        (build (withoutCallsOf Field.SessionTimeout
          [Call.WithServers ["a:1"], Call.WithSessionTimeout (10 * Second),
            Call.WithInterfaceName "x", Call.WithSessionTimeout 0])) = Except.ok o :=
  ⟨{ Servers := ["a:1"], InterfaceName := "x", RegistryGroup := "dubbo",
      ServiceGroup := "", ServiceVersion := "", SessionTimeout := 3000000000 },
    rfl,
    (C17_explicit_zero_is_default "dubbo"
      [Call.WithServers ["a:1"], Call.WithSessionTimeout (10 * Second),
        Call.WithInterfaceName "x", Call.WithSessionTimeout 0] _ rfl).1
      ⟨[Call.WithServers ["a:1"], Call.WithSessionTimeout (10 * Second),
        Call.WithInterfaceName "x"], [], rfl, by decide⟩⟩

/-- C18: the two validations run in a fixed order, `Servers` first. On every list of calls
after which the draft has no server and an empty `InterfaceName` (the empty list is one),
`newOptions` fails with the missing-servers message and not with the missing-InterfaceName
message; the InterfaceName message is produced only when `Servers` is non-empty. -/
theorem C18_servers_checked_first (g : String) (calls : List Call) :
    ((draft calls).Servers.length = 0 → (draft calls).InterfaceName = "" →
        newOptions g (build calls) =
            Except.error "Please specify at least one zookeeper server address. e.g. WithServers(\"127.0.0.1:2181\")" ∧
          newOptions g (build calls) ≠
            Except.error "Please specify target InterfaceName. e.g. WithInterfaceName(\"org.cloudwego.kitex.samples.api.GreetProvider\")") ∧
      (newOptions g (build calls) =
          Except.error "Please specify target InterfaceName. e.g. WithInterfaceName(\"org.cloudwego.kitex.samples.api.GreetProvider\")" →
        1 ≤ (draft calls).Servers.length ∧ (draft calls).InterfaceName = "") ∧
      newOptions g (build []) =
        Except.error "Please specify at least one zookeeper server address. e.g. WithServers(\"127.0.0.1:2181\")" := by
  refine ⟨fun hs _ => ?_, fun h => ?_, ?_⟩
  · have e : newOptions g (build calls) =
        Except.error "Please specify at least one zookeeper server address. e.g. WithServers(\"127.0.0.1:2181\")" := by
      rw [newOptions_build, if_pos (by omega)]
    refine ⟨e, ?_⟩
    rw [e]
    intro h
    exact messages_ne (Except.error.inj h)
  · rw [newOptions_build] at h
    by_cases hs : (draft calls).Servers.length ≤ 0
    · rw [if_pos hs] at h
      exact absurd (Except.error.inj h) messages_ne
    · rw [if_neg hs] at h
      by_cases hn : (draft calls).InterfaceName = ""
      · exact ⟨by omega, hn⟩
      · rw [if_neg hn] at h
        cases h
  · rw [newOptions_build, if_pos (by decide)]

/-- Witness of C18: optional setters only, both required fields missing. -/
theorem C18_servers_checked_first_witness :
    newOptions "dubbo" (build [Call.WithRegistryGroup "grp", Call.WithServers []]) =
        Except.error "Please specify at least one zookeeper server address. e.g. WithServers(\"127.0.0.1:2181\")" ∧
      newOptions "dubbo" (build [Call.WithRegistryGroup "grp", Call.WithServers []]) ≠
        Except.error "Please specify target InterfaceName. e.g. WithInterfaceName(\"org.cloudwego.kitex.samples.api.GreetProvider\")" :=
  (C18_servers_checked_first "dubbo" [Call.WithRegistryGroup "grp", Call.WithServers []]).1
    (by decide) (by decide)

end resolver

namespace dubbo

/-- C12: the six response payload constants have the wire codes of the spec table, 0 to 5 in
the order exception, value, null value and then the same three with attachments; they are
pairwise distinct, and every integer in 0..5 is the code of exactly one of them while no other
integer is the code of any. -/
theorem C12_payload_codes :
    RESPONSE_WITH_EXCEPTION = 0 ∧ RESPONSE_VALUE = 1 ∧ RESPONSE_NULL_VALUE = 2 ∧
      RESPONSE_WITH_EXCEPTION_WITH_ATTACHMENTS = 3 ∧ RESPONSE_VALUE_WITH_ATTACHMENTS = 4 ∧
      RESPONSE_NULL_VALUE_WITH_ATTACHMENTS = 5 ∧
      List.Pairwise (fun a b : Int => a ≠ b)
        [RESPONSE_WITH_EXCEPTION, RESPONSE_VALUE, RESPONSE_NULL_VALUE,
          RESPONSE_WITH_EXCEPTION_WITH_ATTACHMENTS, RESPONSE_VALUE_WITH_ATTACHMENTS,
          RESPONSE_NULL_VALUE_WITH_ATTACHMENTS] ∧
      (∀ c : Int, (0 ≤ c ∧ c ≤ 5) ↔
        c ∈ [RESPONSE_WITH_EXCEPTION, RESPONSE_VALUE, RESPONSE_NULL_VALUE,
          RESPONSE_WITH_EXCEPTION_WITH_ATTACHMENTS, RESPONSE_VALUE_WITH_ATTACHMENTS,
          RESPONSE_NULL_VALUE_WITH_ATTACHMENTS]) ∧
      (∀ c : Int, 0 ≤ c → c ≤ 5 →
        List.count c
          [RESPONSE_WITH_EXCEPTION, RESPONSE_VALUE, RESPONSE_NULL_VALUE,
          RESPONSE_WITH_EXCEPTION_WITH_ATTACHMENTS, RESPONSE_VALUE_WITH_ATTACHMENTS,
          RESPONSE_NULL_VALUE_WITH_ATTACHMENTS] = 1) := by
  refine ⟨rfl, rfl, rfl, rfl, rfl, rfl, by decide, fun c => ?_, fun c h0 h5 => ?_⟩
  · simp only [RESPONSE_WITH_EXCEPTION, RESPONSE_VALUE, RESPONSE_NULL_VALUE,
      RESPONSE_WITH_EXCEPTION_WITH_ATTACHMENTS, RESPONSE_VALUE_WITH_ATTACHMENTS,
      RESPONSE_NULL_VALUE_WITH_ATTACHMENTS, List.mem_cons, List.mem_singleton]
    constructor
    · intro h
      omega
    · intro h
      rcases h with h | h | h | h | h | h | h
      · subst h; decide
      · subst h; decide
      · subst h; decide
      · subst h; decide
      · subst h; decide
      · subst h; decide
      · cases h
  · interval_cases c <;> decide

/-- C13: `classify` succeeds for each code 0..5 with the variant of the table, and for every
other integer, 6 and -1 among them, it fails with the unknown-payload-kind error that carries
the offending code; it is total, so every call returns a variant or that error. -/
theorem C13_classify_total :
    classify 0 = Except.ok ResponsePayloadKind.exception ∧
      classify 1 = Except.ok ResponsePayloadKind.value ∧
      classify 2 = Except.ok ResponsePayloadKind.nullValue ∧
      classify 3 = Except.ok ResponsePayloadKind.exceptionWithAttachments ∧
      classify 4 = Except.ok ResponsePayloadKind.valueWithAttachments ∧
      classify 5 = Except.ok ResponsePayloadKind.nullValueWithAttachments ∧
      (∀ c : Int, ¬ (0 ≤ c ∧ c ≤ 5) →
        classify c = Except.error (ClassificationError.unknownPayloadKind c)) ∧
      classify 6 = Except.error (ClassificationError.unknownPayloadKind 6) ∧
      classify (-1) = Except.error (ClassificationError.unknownPayloadKind (-1)) ∧
      (∀ c : Int, (∃ k, classify c = Except.ok k) ∨
        classify c = Except.error (ClassificationError.unknownPayloadKind c)) := by
  have hout : ∀ c : Int, ¬ (0 ≤ c ∧ c ≤ 5) →
      classify c = Except.error (ClassificationError.unknownPayloadKind c) := by
    intro c hc
    unfold classify
    simp only [RESPONSE_WITH_EXCEPTION, RESPONSE_VALUE, RESPONSE_NULL_VALUE,
      RESPONSE_WITH_EXCEPTION_WITH_ATTACHMENTS, RESPONSE_VALUE_WITH_ATTACHMENTS,
      RESPONSE_NULL_VALUE_WITH_ATTACHMENTS]
    rw [if_neg (by omega), if_neg (by omega), if_neg (by omega), if_neg (by omega),
      if_neg (by omega), if_neg (by omega)]
  refine ⟨rfl, rfl, rfl, rfl, rfl, rfl, hout, rfl, rfl, fun c => ?_⟩
  by_cases hc : 0 ≤ c ∧ c ≤ 5
  · left
    obtain ⟨h0, h5⟩ := hc
    interval_cases c <;> exact ⟨_, rfl⟩
  · exact Or.inr (hout c hc)

/-- C15: among the payload constants a code is one of the three with-attachments constants
exactly when it is at least 3; each with-attachments constant equals its plain counterpart
plus 3; and the code modulo 3 gives the kind: remainder 0 for the two exception codes 0 and 3,
remainder 1 for the two value codes 1 and 4, remainder 2 for the two null-value codes 2 and
5. -/
theorem C15_attachments_offset :
    RESPONSE_WITH_EXCEPTION_WITH_ATTACHMENTS = RESPONSE_WITH_EXCEPTION + 3 ∧
      RESPONSE_VALUE_WITH_ATTACHMENTS = RESPONSE_VALUE + 3 ∧
      RESPONSE_NULL_VALUE_WITH_ATTACHMENTS = RESPONSE_NULL_VALUE + 3 ∧
      (∀ c ∈ [RESPONSE_WITH_EXCEPTION, RESPONSE_VALUE, RESPONSE_NULL_VALUE,
          RESPONSE_WITH_EXCEPTION_WITH_ATTACHMENTS, RESPONSE_VALUE_WITH_ATTACHMENTS,
          RESPONSE_NULL_VALUE_WITH_ATTACHMENTS],
        (c ∈ [RESPONSE_WITH_EXCEPTION_WITH_ATTACHMENTS, RESPONSE_VALUE_WITH_ATTACHMENTS,
          RESPONSE_NULL_VALUE_WITH_ATTACHMENTS] ↔ 3 ≤ c) ∧
        (c ∈ [RESPONSE_WITH_EXCEPTION, RESPONSE_VALUE, RESPONSE_NULL_VALUE] ↔ c < 3) ∧
        (c ∈ [RESPONSE_WITH_EXCEPTION, RESPONSE_WITH_EXCEPTION_WITH_ATTACHMENTS] ↔
          c % 3 = 0) ∧
        (c ∈ [RESPONSE_VALUE, RESPONSE_VALUE_WITH_ATTACHMENTS] ↔ c % 3 = 1) ∧
        (c ∈ [RESPONSE_NULL_VALUE, RESPONSE_NULL_VALUE_WITH_ATTACHMENTS] ↔ c % 3 = 2)) ∧
      [RESPONSE_WITH_EXCEPTION, RESPONSE_WITH_EXCEPTION_WITH_ATTACHMENTS] = [0, 3] ∧
      [RESPONSE_VALUE, RESPONSE_VALUE_WITH_ATTACHMENTS] = [1, 4] ∧
      [RESPONSE_NULL_VALUE, RESPONSE_NULL_VALUE_WITH_ATTACHMENTS] = [2, 5] := by
  refine ⟨rfl, rfl, rfl, by decide, rfl, rfl, rfl⟩

end dubbo
